import Mathlib

/-!
Shallow embedding of `src/Final_car.ino` (receiver node of the IR-controlled
car): the mode/safety controller, the manual-silence watchdog and the
obstacle-avoidance cycle, together with the actuator pin operations.

Modelling conventions:
* Digital pin levels are `Bool` (`true` = HIGH, `false` = LOW).
* `millis()` is modelled as an unbounded monotone `Nat` counter; the C code
  computes elapsed time with unsigned 32-bit subtraction, which agrees with
  truncated `Nat` subtraction whenever the clock has not wrapped between the
  two samples (`now ≥ last` and `now - last < 2^32`). Within one loop
  iteration all `millis()` samples are modelled by the single value `now`.
* `pulseIn` returns the echo duration, or `0` on timeout; the sensor input of
  an iteration is an `Option Nat` (`none` = no echo), and `pulseInEcho`
  realises the `0`-on-timeout encoding.
* `duration * 0.034 / 2` truncated to `int` is modelled as the exact rational
  computation `duration * 17 / 1000` with truncating division; the claims only
  evaluate it at small durations and at `0`, where the double-precision
  computation is exact.
* `Serial` prints are ignored (no observable state).
-/

namespace IrCar

/-- Controller state of the receiver sketch: the global variables
`isSmartForward`, `isAvoiding`, `lastObstacleCheck`, `lastIRSignalTime`
together with the observable output pins (motor pins IN1..IN4 and the
buzzer pin). -/
structure CarState where
  isSmartForward : Bool
  isAvoiding : Bool
  lastObstacleCheck : Nat
  lastIRSignalTime : Nat
  in1 : Bool
  in2 : Bool
  in3 : Bool
  in4 : Bool
  buzzer : Bool
deriving Repr, DecidableEq

/-- `#define IR_FORWARD 0x2200`. -/
def IR_FORWARD : Nat := 0x2200
/-- `#define IR_BACKWARD 0xC200`. -/
def IR_BACKWARD : Nat := 0xC200
/-- `#define IR_LEFT 0xA800`. -/
def IR_LEFT : Nat := 0xA800
/-- `#define IR_RIGHT 0x6200`. -/
def IR_RIGHT : Nat := 0x6200
/-- `#define IR_SMART_FWD 0x200`. -/
def IR_SMART_FWD : Nat := 0x200

/-- `#define OBSTACLE_THRESHOLD 20` (distance in cm). -/
def OBSTACLE_THRESHOLD : Int := 20

/-- `const unsigned long obstacleCheckInterval = 300`. -/
def obstacleCheckInterval : Nat := 300

/-- `const unsigned long signalTimeout = 200`. -/
def signalTimeout : Nat := 200

/-- `moveForward()`: IN1 LOW, IN2 LOW, IN3 HIGH, IN4 HIGH. -/
def moveForward (s : CarState) : CarState :=
  { s with in1 := false, in2 := false, in3 := true, in4 := true }

/-- `moveBackward()`: IN1 HIGH, IN2 HIGH, IN3 LOW, IN4 LOW. -/
def moveBackward (s : CarState) : CarState :=
  { s with in1 := true, in2 := true, in3 := false, in4 := false }

/-- `turnLeft()`: IN1 LOW, IN2 HIGH, IN3 HIGH, IN4 LOW. -/
def turnLeft (s : CarState) : CarState :=
  { s with in1 := false, in2 := true, in3 := true, in4 := false }

/-- `turnRight()`: IN1 HIGH, IN2 LOW, IN3 LOW, IN4 HIGH. -/
def turnRight (s : CarState) : CarState :=
  { s with in1 := true, in2 := false, in3 := false, in4 := true }

/-- `stopCar()`: all four motor pins HIGH. -/
def stopCar (s : CarState) : CarState :=
  { s with in1 := true, in2 := true, in3 := true, in4 := true }

/-- The four motor pin levels `(IN1, IN2, IN3, IN4)` of a state. -/
def pins (s : CarState) : Bool × Bool × Bool × Bool :=
  (s.in1, s.in2, s.in3, s.in4)

/-- Pin pattern written by `moveForward()`. -/
def forwardPins : Bool × Bool × Bool × Bool := (false, false, true, true)
/-- Pin pattern written by `moveBackward()`. -/
def backwardPins : Bool × Bool × Bool × Bool := (true, true, false, false)
/-- Pin pattern written by `turnLeft()`. -/
def leftPins : Bool × Bool × Bool × Bool := (false, true, true, false)
/-- Pin pattern written by `turnRight()`. -/
def rightPins : Bool × Bool × Bool × Bool := (true, false, false, true)
/-- Pin pattern written by `stopCar()`. -/
def stopPins : Bool × Bool × Bool × Bool := (true, true, true, true)

/-- `toggleSmartMode()`: flip `isSmartForward`; if now on, `moveForward()`;
if now off, buzzer LOW and `stopCar()`. -/
def toggleSmartMode (s : CarState) : CarState :=
  let s1 := { s with isSmartForward := !s.isSmartForward }
  if s1.isSmartForward then moveForward s1
  else stopCar { s1 with buzzer := false }

/-- `stopSmartMode()`: if in smart mode, leave it and set the buzzer LOW;
otherwise do nothing. -/
def stopSmartMode (s : CarState) : CarState :=
  if s.isSmartForward then { s with isSmartForward := false, buzzer := false }
  else s

/-- `handleIRCommand()`: the `switch` on `IrReceiver.decodedIRData.command`.
A code matching none of the five cases falls through the `switch` and changes
nothing. -/
def handleIRCommand (c : Nat) (s : CarState) : CarState :=
  if c = IR_FORWARD then (if !s.isSmartForward then moveForward s else s)
  else if c = IR_BACKWARD then moveBackward (stopSmartMode s)
  else if c = IR_LEFT then turnLeft (stopSmartMode s)
  else if c = IR_RIGHT then turnRight (stopSmartMode s)
  else if c = IR_SMART_FWD then toggleSmartMode s
  else s

/-- `pulseIn(ECHO_PIN, HIGH)`: the measured echo duration, or `0` when the
wait times out (no echo). -/
def pulseInEcho (echo : Option Nat) : Nat := echo.getD 0

/-- `getDistance()`: convert the echo duration to centimetres,
`duration * 0.034 / 2` truncated to `int`, i.e. `duration * 17 / 1000`. -/
def getDistance (echo : Option Nat) : Int :=
  Int.ofNat (pulseInEcho echo * 17 / 1000)

/-- `checkObstacle()` body after `getDistance()` returned `distance`:
record `lastObstacleCheck := millis()`; if `distance > 0 && distance <
OBSTACLE_THRESHOLD`, set `isAvoiding`, buzzer HIGH and `turnRight()`;
otherwise clear `isAvoiding`, buzzer LOW and `moveForward()`. -/
def checkObstacle (s : CarState) (now : Nat) (distance : Int) : CarState :=
  if 0 < distance ∧ distance < OBSTACLE_THRESHOLD then
    turnRight { s with lastObstacleCheck := now, isAvoiding := true, buzzer := true }
  else
    moveForward { s with lastObstacleCheck := now, isAvoiding := false, buzzer := false }

/-- `checkObstacle()` as called from `loop()`: measure the distance with the
ultrasonic sensor (`echo` is the pulse result of this iteration) and react. -/
def avoidanceCycle (s : CarState) (now : Nat) (echo : Option Nat) : CarState :=
  checkObstacle s now (getDistance echo)

/-- One iteration of `loop()`. `cmd` is the decoded IR code of this iteration
(`none` when `IrReceiver.decode()` returned false), `echo` the ultrasonic
echo of this iteration, `now` the value of `millis()`:
1. on a decoded frame, `lastIRSignalTime = millis()` then `handleIRCommand()`;
2. manual-silence watchdog: if not in smart mode and the elapsed time since
   `lastIRSignalTime` exceeds `signalTimeout`, `stopCar()`;
3. if in smart mode and the elapsed time since `lastObstacleCheck` exceeds
   `obstacleCheckInterval`, `checkObstacle()`. -/
def loopStep (s : CarState) (now : Nat) (cmd : Option Nat) (echo : Option Nat) :
    CarState :=
  let s1 := match cmd with
    | some c => handleIRCommand c { s with lastIRSignalTime := now }
    | none => s
  let s2 := if s1.isSmartForward = false ∧ signalTimeout < now - s1.lastIRSignalTime
    then stopCar s1 else s1
  if s2.isSmartForward = true ∧ obstacleCheckInterval < now - s2.lastObstacleCheck
    then avoidanceCycle s2 now echo else s2

/-- State after `setup()`: globals at their initialisers, `stopCar()` has run
and the buzzer pin was written LOW. -/
def initState : CarState :=
  { isSmartForward := false, isAvoiding := false, lastObstacleCheck := 0,
    lastIRSignalTime := 0, in1 := true, in2 := true, in3 := true, in4 := true,
    buzzer := false }

/-- Run a sequence of loop iterations from a given state; each input is
`(now, cmd, echo)`. -/
def runFrom (s : CarState) (inputs : List (Nat × Option Nat × Option Nat)) :
    CarState :=
  inputs.foldl (fun t i => loopStep t i.1 i.2.1 i.2.2) s

/-- Run a sequence of loop iterations from the post-`setup()` state. -/
def run (inputs : List (Nat × Option Nat × Option Nat)) : CarState :=
  runFrom initState inputs

/-! ## Helper lemmas -/

/-- The avoidance cycle never changes the operating mode. -/
lemma avoidanceCycle_mode (s : CarState) (now : Nat) (e : Option Nat) :
    (avoidanceCycle s now e).isSmartForward = s.isSmartForward := by
  unfold avoidanceCycle checkObstacle turnRight moveForward
  split <;> rfl

/-- The avoidance cycle records the current time in `lastObstacleCheck`. -/
lemma avoidanceCycle_stamp (s : CarState) (now : Nat) (e : Option Nat) :
    (avoidanceCycle s now e).lastObstacleCheck = now := by
  unfold avoidanceCycle checkObstacle turnRight moveForward
  split <;> rfl

/-- A manual-mode iteration with no decoded frame and with the silence
timeout strictly exceeded reduces to `stopCar`. -/
lemma manual_silent_step (s : CarState) (hs : s.isSmartForward = false)
    (now : Nat) (e : Option Nat)
    (h : s.lastIRSignalTime + signalTimeout < now) :
    loopStep s now none e = stopCar s := by
  have h2 : signalTimeout < now - s.lastIRSignalTime := by omega
  simp [loopStep, hs, h2, stopCar]

/-- Iterating silent over-timeout manual iterations from an already stopped
state keeps the state exactly `stopCar s`. -/
lemma runFrom_silent_stopped (ts : List Nat) (s : CarState)
    (hs : s.isSmartForward = false)
    (ht : ∀ t ∈ ts, s.lastIRSignalTime + signalTimeout < t) :
    runFrom (stopCar s) (ts.map fun t => (t, none, none)) = stopCar s := by
  induction ts generalizing s with
  | nil => rfl
  | cons t rest ih =>
    have hstep : loopStep (stopCar s) t none none = stopCar (stopCar s) :=
      manual_silent_step (stopCar s) hs t none (ht t (by simp))
    have hcollapse : stopCar (stopCar s) = stopCar s := rfl
    show runFrom (loopStep (stopCar s) t none none)
      (rest.map fun t => (t, none, none)) = stopCar s
    rw [hstep, hcollapse]
    exact ih s hs fun t htm => ht t (by simp [htm])

/-! ## Claim theorems -/

/-- Claim C1: in Manual mode, on every loop iteration at which no IR command
is decoded and the silence since `lastIRSignalTime` strictly exceeds the
200-unit timeout, `stopCar()` is invoked; hence over any nonempty sequence of
such iterations the actuator reaches the stop pin pattern and the state stays
exactly the stopped state (mode, timestamps and buzzer untouched) until a
next command arrives. -/
theorem C1_manual_silence_watchdog (s : CarState) (hs : s.isSmartForward = false)
    (ts : List Nat) (hne : ts ≠ [])
    (ht : ∀ t ∈ ts, s.lastIRSignalTime + signalTimeout < t) :
    runFrom s (ts.map fun t => (t, none, none)) = stopCar s ∧
    pins (stopCar s) = stopPins := by
  refine ⟨?_, rfl⟩
  match ts, hne with
  | t :: rest, _ =>
    have hstep : loopStep s t none none = stopCar s :=
      manual_silent_step s hs t none (ht t (by simp))
    show runFrom (loopStep s t none none)
      (rest.map fun t => (t, none, none)) = stopCar s
    rw [hstep]
    exact runFrom_silent_stopped rest s hs fun t htm => ht t (by simp [htm])

/-- Witness for C1 at a concrete run: one silent iteration at time 201 from
the post-setup state. -/
theorem C1_manual_silence_watchdog_witness :
    runFrom initState [(201, none, none)] = stopCar initState ∧
    pins (stopCar initState) = stopPins :=
  C1_manual_silence_watchdog initState rfl [201] (by decide) (by decide)

/-- Concrete trace used against claim C2: enter smart mode, hit an obstacle
(so `isAvoiding` becomes true), leave smart mode with a Backward command
(`isAvoiding` stays true), then toggle smart mode back on from Manual. -/
def c2Trace : List (Nat × Option Nat × Option Nat) :=
  [(10, some IR_SMART_FWD, none), (400, none, some 500),
   (450, some IR_BACKWARD, none), (500, some IR_SMART_FWD, none)]

/-- Counterexample to claim C2: after `c2Trace.take 3` the controller is in
Manual with `isAvoiding = true` (a reachable state); the fourth iteration
receives ToggleSmartForward, enters SmartForward and drives forward, but
`isAvoiding` is still `true` — the code never resets AvoidanceState to Clear
on entry. -/
theorem C2_counterexample :
    (run (c2Trace.take 3)).isSmartForward = false ∧
    (run (c2Trace.take 3)).isAvoiding = true ∧
    (run c2Trace).isSmartForward = true ∧
    pins (run c2Trace) = forwardPins ∧
    (run c2Trace).isAvoiding = true := by decide

/-- Claim C2 (amended): when ToggleSmartForward is received while the mode is
Manual, the controller enters SmartForward and issues drive-forward, and
leaves AvoidanceState unchanged (it is not reset to Clear). -/
theorem C2_manual_toggle_enters_smart (s : CarState)
    (hs : s.isSmartForward = false) :
    (handleIRCommand IR_SMART_FWD s).isSmartForward = true ∧
    pins (handleIRCommand IR_SMART_FWD s) = forwardPins ∧
    (handleIRCommand IR_SMART_FWD s).isAvoiding = s.isAvoiding := by
  simp [handleIRCommand, IR_SMART_FWD, IR_FORWARD, IR_BACKWARD, IR_LEFT,
    IR_RIGHT, toggleSmartMode, hs, moveForward, pins, forwardPins]

/-- Witness for the amended C2 at the post-setup state. -/
theorem C2_manual_toggle_enters_smart_witness :
    (handleIRCommand IR_SMART_FWD initState).isSmartForward = true ∧
    pins (handleIRCommand IR_SMART_FWD initState) = forwardPins ∧
    (handleIRCommand IR_SMART_FWD initState).isAvoiding = initState.isAvoiding :=
  C2_manual_toggle_enters_smart initState rfl

/-- Claim C3: from any SmartForward state (any `isAvoiding`, any pins), a
Backward, Left or Right command exits smart mode, silences the buzzer and
writes the corresponding motor pin pattern. -/
theorem C3_manual_override (s : CarState) (hs : s.isSmartForward = true) :
    ((handleIRCommand IR_BACKWARD s).isSmartForward = false ∧
     (handleIRCommand IR_BACKWARD s).buzzer = false ∧
     pins (handleIRCommand IR_BACKWARD s) = backwardPins) ∧
    ((handleIRCommand IR_LEFT s).isSmartForward = false ∧
     (handleIRCommand IR_LEFT s).buzzer = false ∧
     pins (handleIRCommand IR_LEFT s) = leftPins) ∧
    ((handleIRCommand IR_RIGHT s).isSmartForward = false ∧
     (handleIRCommand IR_RIGHT s).buzzer = false ∧
     pins (handleIRCommand IR_RIGHT s) = rightPins) := by
  simp [handleIRCommand, IR_SMART_FWD, IR_FORWARD, IR_BACKWARD, IR_LEFT,
    IR_RIGHT, stopSmartMode, hs, moveBackward, turnLeft, turnRight, pins,
    backwardPins, leftPins, rightPins]

/-- Concrete SmartForward state with the buzzer on and `isAvoiding` set, as
produced by an avoidance reaction (used to instantiate C3). -/
def smartAvoidingState : CarState :=
  { initState with isSmartForward := true, isAvoiding := true, buzzer := true }

/-- Witness for C3 at a concrete SmartForward state with the buzzer on and
`isAvoiding` set. -/
theorem C3_manual_override_witness :
    ((handleIRCommand IR_BACKWARD smartAvoidingState).isSmartForward = false ∧
     (handleIRCommand IR_BACKWARD smartAvoidingState).buzzer = false ∧
     pins (handleIRCommand IR_BACKWARD smartAvoidingState) = backwardPins) ∧
    ((handleIRCommand IR_LEFT smartAvoidingState).isSmartForward = false ∧
     (handleIRCommand IR_LEFT smartAvoidingState).buzzer = false ∧
     pins (handleIRCommand IR_LEFT smartAvoidingState) = leftPins) ∧
    ((handleIRCommand IR_RIGHT smartAvoidingState).isSmartForward = false ∧
     (handleIRCommand IR_RIGHT smartAvoidingState).buzzer = false ∧
     pins (handleIRCommand IR_RIGHT smartAvoidingState) = rightPins) :=
  C3_manual_override smartAvoidingState rfl

/-- Claim C4: when the distance reading is absent (no echo, `pulseIn`
returns 0) the avoidance cycle deactivates the buzzer and issues
drive-forward, never turn-right, from any state. -/
theorem C4_fail_open_on_timeout (s : CarState) (now : Nat) :
    (avoidanceCycle s now none).buzzer = false ∧
    pins (avoidanceCycle s now none) = forwardPins ∧
    pins (avoidanceCycle s now none) ≠ rightPins := by
  simp [avoidanceCycle, getDistance, pulseInEcho, checkObstacle,
    OBSTACLE_THRESHOLD, moveForward, pins, forwardPins, rightPins]

/-- Claim C5: a present reading exactly at the 20 cm threshold is treated as
clear (buzzer off, drive-forward), a reading of 19 triggers avoidance
(buzzer on, turn-right), and in general the buzzer fires exactly when
`0 < distance < OBSTACLE_THRESHOLD` — a strict less-than comparison. -/
theorem C5_threshold_boundary (s : CarState) (now : Nat) :
    OBSTACLE_THRESHOLD = 20 ∧
    ((checkObstacle s now 20).buzzer = false ∧
     pins (checkObstacle s now 20) = forwardPins) ∧
    ((checkObstacle s now 19).buzzer = true ∧
     pins (checkObstacle s now 19) = rightPins) ∧
    (∀ d : Int, (checkObstacle s now d).buzzer = true ↔
      0 < d ∧ d < OBSTACLE_THRESHOLD) := by
  refine ⟨rfl, ?_, ?_, ?_⟩
  · simp [checkObstacle, OBSTACLE_THRESHOLD, moveForward, pins, forwardPins]
  · simp [checkObstacle, OBSTACLE_THRESHOLD, turnRight, pins, rightPins]
  · intro d
    by_cases hd : 0 < d ∧ d < OBSTACLE_THRESHOLD
    · simp [checkObstacle, hd, turnRight]
    · simp [checkObstacle, hd, moveForward]

/-- The post-setup state with smart mode already switched on (both obstacle
and IR timestamps still 0). -/
def smartOnState : CarState := { initState with isSmartForward := true }

/-- Counterexample to claim C6: in SmartForward with `lastObstacleCheck = 0`,
the iteration at time 300 — at which exactly the 300-unit interval has
elapsed — does not execute the avoidance cycle at all (the state is
unchanged), although executing it with the pending echo of 500 µs
(distance 8 cm) would have turned the buzzer on. The guard is strict:
elapsed > interval. -/
theorem C6_counterexample :
    loopStep smartOnState 300 none (some 500) = smartOnState ∧
    (avoidanceCycle smartOnState 300 (some 500)).buzzer = true := by decide

/-- Claim C6 (amended): while in SmartForward, a no-command iteration
executes the avoidance cycle exactly when the elapsed time since
`lastObstacleCheck` strictly exceeds the 300-unit interval; at elapsed ≤ 300
(exactly 300 included) the iteration changes nothing, and when the cycle
does execute it re-stamps `lastObstacleCheck` with the current time, so two
consecutive executions are separated by more than the interval. -/
theorem C6_cadence (s : CarState) (now : Nat) (e : Option Nat)
    (hs : s.isSmartForward = true) :
    (now - s.lastObstacleCheck ≤ obstacleCheckInterval →
      loopStep s now none e = s) ∧
    (obstacleCheckInterval < now - s.lastObstacleCheck →
      loopStep s now none e = avoidanceCycle s now e ∧
      (loopStep s now none e).lastObstacleCheck = now) := by
  constructor
  · intro h
    simp [loopStep, hs, Nat.not_lt.mpr h]
  · intro h
    have hrun : loopStep s now none e = avoidanceCycle s now e := by
      simp [loopStep, hs, h]
    exact ⟨hrun, by rw [hrun]; exact avoidanceCycle_stamp s now e⟩

/-- Witness for the amended C6: at time 300 nothing happens, at time 301 the
cycle runs and re-stamps the timestamp. -/
theorem C6_cadence_witness :
    loopStep smartOnState 300 none (some 500) = smartOnState ∧
    (loopStep smartOnState 301 none (some 500) =
      avoidanceCycle smartOnState 301 (some 500) ∧
     (loopStep smartOnState 301 none (some 500)).lastObstacleCheck = 301) :=
  ⟨(C6_cadence smartOnState 300 (some 500) rfl).1 (by decide),
   (C6_cadence smartOnState 301 (some 500) rfl).2 (by decide)⟩

/-- A SmartForward iteration that decodes ToggleSmartForward leaves smart
mode, stops the car and silences the buzzer, whatever the rest of the
state. -/
lemma smart_toggle_step (s : CarState) (hs : s.isSmartForward = true)
    (now : Nat) (e : Option Nat) :
    (loopStep s now (some IR_SMART_FWD) e).isSmartForward = false ∧
    pins (loopStep s now (some IR_SMART_FWD) e) = stopPins ∧
    (loopStep s now (some IR_SMART_FWD) e).buzzer = false := by
  simp [loopStep, handleIRCommand, IR_SMART_FWD, IR_FORWARD, IR_BACKWARD,
    IR_LEFT, IR_RIGHT, toggleSmartMode, hs, stopCar, pins, stopPins]

/-- A Manual iteration that decodes ToggleSmartForward ends the iteration in
smart mode (the avoidance cycle, if it runs in the same iteration, does not
change the mode). -/
lemma manual_toggle_step (s : CarState) (hs : s.isSmartForward = false)
    (now : Nat) (e : Option Nat) :
    (loopStep s now (some IR_SMART_FWD) e).isSmartForward = true := by
  have h1 : (toggleSmartMode { s with lastIRSignalTime := now }).isSmartForward
      = true := by
    simp [toggleSmartMode, hs, moveForward]
  have hcmd : handleIRCommand IR_SMART_FWD { s with lastIRSignalTime := now } =
      toggleSmartMode { s with lastIRSignalTime := now } := by
    simp [handleIRCommand, IR_SMART_FWD, IR_FORWARD, IR_BACKWARD, IR_LEFT,
      IR_RIGHT]
  unfold loopStep
  dsimp only []
  rw [hcmd]
  split_ifs <;> simp_all [avoidanceCycle_mode, stopCar]

/-- A no-command iteration in SmartForward stays in SmartForward. -/
lemma silent_smart_step (s : CarState) (hs : s.isSmartForward = true)
    (now : Nat) (e : Option Nat) :
    (loopStep s now none e).isSmartForward = true := by
  unfold loopStep
  dsimp only []
  split_ifs <;> simp_all [avoidanceCycle_mode, stopCar]

/-- Any number of no-command iterations keeps the controller in
SmartForward. -/
lemma runFrom_silent_smart (mids : List (Nat × Option Nat)) (s : CarState)
    (hs : s.isSmartForward = true) :
    (runFrom s (mids.map fun p => (p.1, none, p.2))).isSmartForward = true := by
  induction mids generalizing s with
  | nil => exact hs
  | cons m rest ih =>
    show (runFrom (loopStep s m.1 none m.2)
      (rest.map fun p => (p.1, none, p.2))).isSmartForward = true
    exact ih (loopStep s m.1 none m.2) (silent_smart_step s hs m.1 m.2)

/-- Claim C7: `toggleSmartMode` always flips exactly the one-bit mode state;
and starting from any Manual state, an iteration receiving
ToggleSmartForward, followed by any number of command-free iterations,
followed by a second iteration receiving ToggleSmartForward, ends in Manual
with the motor pins at the stop pattern and the buzzer off. -/
theorem C7_toggle_round_trip (s t : CarState) (hs : s.isSmartForward = false)
    (t1 t2 : Nat) (e1 e2 : Option Nat) (mids : List (Nat × Option Nat)) :
    (toggleSmartMode t).isSmartForward = !t.isSmartForward ∧
    ((loopStep (runFrom (loopStep s t1 (some IR_SMART_FWD) e1)
        (mids.map fun p => (p.1, none, p.2))) t2 (some IR_SMART_FWD) e2).isSmartForward
        = false ∧
     pins (loopStep (runFrom (loopStep s t1 (some IR_SMART_FWD) e1)
        (mids.map fun p => (p.1, none, p.2))) t2 (some IR_SMART_FWD) e2)
        = stopPins ∧
     (loopStep (runFrom (loopStep s t1 (some IR_SMART_FWD) e1)
        (mids.map fun p => (p.1, none, p.2))) t2 (some IR_SMART_FWD) e2).buzzer
        = false) := by
  constructor
  · cases h : t.isSmartForward <;> simp [toggleSmartMode, h, moveForward, stopCar]
  · have h1 : (loopStep s t1 (some IR_SMART_FWD) e1).isSmartForward = true :=
      manual_toggle_step s hs t1 e1
    have h2 : (runFrom (loopStep s t1 (some IR_SMART_FWD) e1)
        (mids.map fun p => (p.1, none, p.2))).isSmartForward = true :=
      runFrom_silent_smart mids _ h1
    exact smart_toggle_step _ h2 t2 e2

/-- Witness for C7: a double toggle from the post-setup state with one silent
iteration in between. -/
theorem C7_toggle_round_trip_witness :
    (toggleSmartMode initState).isSmartForward = !initState.isSmartForward ∧
    ((loopStep (runFrom (loopStep initState 10 (some IR_SMART_FWD) none)
        [(400, none, some 500)]) 450 (some IR_SMART_FWD) none).isSmartForward
        = false ∧
     pins (loopStep (runFrom (loopStep initState 10 (some IR_SMART_FWD) none)
        [(400, none, some 500)]) 450 (some IR_SMART_FWD) none) = stopPins ∧
     (loopStep (runFrom (loopStep initState 10 (some IR_SMART_FWD) none)
        [(400, none, some 500)]) 450 (some IR_SMART_FWD) none).buzzer
        = false) :=
  C7_toggle_round_trip initState initState rfl 10 450 none none
    [(400, some 500)]

/-- Invariant for claim C8: whenever the controller is in Manual mode, the
buzzer pin is LOW. -/
def BuzzerInv (s : CarState) : Prop :=
  s.isSmartForward = false → s.buzzer = false

/-- `stopSmartMode` preserves the Manual-implies-buzzer-off invariant. -/
lemma buzzerInv_stopSmartMode (s : CarState) (h : BuzzerInv s) :
    BuzzerInv (stopSmartMode s) := by
  unfold BuzzerInv stopSmartMode at *
  split_ifs <;> simp_all

/-- `toggleSmartMode` establishes the Manual-implies-buzzer-off invariant
unconditionally: leaving smart mode writes the buzzer LOW. -/
lemma buzzerInv_toggleSmartMode (s : CarState) :
    BuzzerInv (toggleSmartMode s) := by
  unfold BuzzerInv toggleSmartMode
  dsimp only []
  split_ifs with h1 <;> intro hm <;> simp_all [moveForward, stopCar]

/-- `handleIRCommand` preserves the Manual-implies-buzzer-off invariant. -/
lemma buzzerInv_handleIRCommand (c : Nat) (s : CarState) (h : BuzzerInv s) :
    BuzzerInv (handleIRCommand c s) := by
  unfold handleIRCommand
  split_ifs <;>
    first
      | exact h
      | exact buzzerInv_stopSmartMode s h
      | exact buzzerInv_toggleSmartMode s

/-- The avoidance cycle runs only in SmartForward, where the invariant is
vacuous. -/
lemma buzzerInv_avoidanceCycle (s : CarState) (now : Nat) (e : Option Nat)
    (hm : s.isSmartForward = true) : BuzzerInv (avoidanceCycle s now e) := by
  unfold BuzzerInv
  rw [avoidanceCycle_mode, hm]
  simp

/-- One loop iteration preserves the Manual-implies-buzzer-off invariant. -/
lemma buzzerInv_loopStep (s : CarState) (h : BuzzerInv s) (now : Nat)
    (cmd e : Option Nat) : BuzzerInv (loopStep s now cmd e) := by
  have hcycle : ∀ t : CarState, BuzzerInv t → BuzzerInv
      (if t.isSmartForward = true ∧
          obstacleCheckInterval < now - t.lastObstacleCheck
        then avoidanceCycle t now e else t) := by
    intro t ht
    split
    · next hc => exact buzzerInv_avoidanceCycle t now e hc.1
    · exact ht
  have hwd : ∀ t : CarState, BuzzerInv t → BuzzerInv
      (if t.isSmartForward = false ∧
          signalTimeout < now - t.lastIRSignalTime
        then stopCar t else t) := by
    intro t ht
    split
    · exact ht
    · exact ht
  cases cmd with
  | none => exact hcycle _ (hwd _ h)
  | some c => exact hcycle _ (hwd _ (buzzerInv_handleIRCommand c _ h))

/-- Every run preserves the Manual-implies-buzzer-off invariant. -/
lemma buzzerInv_runFrom (l : List (Nat × Option Nat × Option Nat))
    (s : CarState) (h : BuzzerInv s) : BuzzerInv (runFrom s l) := by
  induction l generalizing s with
  | nil => exact h
  | cons i rest ih => exact ih _ (buzzerInv_loopStep s h i.1 i.2.1 i.2.2)

/-- Claim C8: in every state reachable from the post-setup state by loop
iterations with arbitrary inputs, Manual mode implies the buzzer is off. -/
theorem C8_manual_implies_buzzer_off
    (inputs : List (Nat × Option Nat × Option Nat))
    (h : (run inputs).isSmartForward = false) : (run inputs).buzzer = false :=
  buzzerInv_runFrom inputs initState (fun _ => rfl) h

/-- Witness for C8 on a concrete run: a silent over-timeout iteration leaves
the controller in Manual, and the buzzer is indeed off. -/
theorem C8_manual_implies_buzzer_off_witness :
    (run [(201, none, none)]).isSmartForward = false ∧
    (run [(201, none, none)]).buzzer = false :=
  ⟨by decide, C8_manual_implies_buzzer_off [(201, none, none)] (by decide)⟩

/-- Claim C9: a sensor timeout is encoded as distance `0` (`pulseIn` yields
duration 0, converted to 0 cm), a genuine short echo (50 µs, obstacle closer
than one cm) also yields distance `0`, and for any echo whose converted
distance is `0` the guard `distance > 0` fails, so the cycle deactivates the
buzzer and issues drive-forward. -/
theorem C9_zero_distance_is_clear (s : CarState) (now : Nat) (e : Option Nat)
    (he : getDistance e = 0) :
    getDistance none = 0 ∧ getDistance (some 50) = 0 ∧
    (avoidanceCycle s now e).buzzer = false ∧
    pins (avoidanceCycle s now e) = forwardPins := by
  refine ⟨rfl, rfl, ?_, ?_⟩ <;>
    · unfold avoidanceCycle
      rw [he]
      simp [checkObstacle, OBSTACLE_THRESHOLD, moveForward, pins, forwardPins]

/-- Witness for C9 at the genuine 50 µs echo. -/
theorem C9_zero_distance_is_clear_witness :
    getDistance none = 0 ∧ getDistance (some 50) = 0 ∧
    (avoidanceCycle initState 0 (some 50)).buzzer = false ∧
    pins (avoidanceCycle initState 0 (some 50)) = forwardPins :=
  C9_zero_distance_is_clear initState 0 (some 50) (by decide)

/-- Codes outside the five recognized IR command codes. -/
def unrecognizedCode (c : Nat) : Prop :=
  c ≠ IR_FORWARD ∧ c ≠ IR_BACKWARD ∧ c ≠ IR_LEFT ∧ c ≠ IR_RIGHT ∧
  c ≠ IR_SMART_FWD

instance : DecidablePred unrecognizedCode := fun c =>
  inferInstanceAs (Decidable (c ≠ IR_FORWARD ∧ c ≠ IR_BACKWARD ∧
    c ≠ IR_LEFT ∧ c ≠ IR_RIGHT ∧ c ≠ IR_SMART_FWD))

/-- An unrecognized code falls through every `case` of the `switch` and
leaves the state untouched. -/
lemma handleIRCommand_unrecognized (c : Nat) (hc : unrecognizedCode c)
    (s : CarState) : handleIRCommand c s = s := by
  obtain ⟨h1, h2, h3, h4, h5⟩ := hc
  simp [handleIRCommand, h1, h2, h3, h4, h5]

/-- A Manual iteration that decodes an unrecognized code only re-stamps
`lastIRSignalTime`; in particular the watchdog cannot fire in the same
iteration since the elapsed silence is zero. -/
lemma manual_unrecognized_step (s : CarState) (hs : s.isSmartForward = false)
    (now c : Nat) (hc : unrecognizedCode c) (e : Option Nat) :
    loopStep s now (some c) e = { s with lastIRSignalTime := now } := by
  unfold loopStep
  dsimp only []
  rw [handleIRCommand_unrecognized c hc]
  simp [hs, Nat.sub_self]

/-- A stream of Manual iterations each decoding an unrecognized code leaves
mode, pins, buzzer and `isAvoiding` untouched. -/
lemma manual_unrecognized_run (l : List (Nat × Nat)) (s : CarState)
    (hs : s.isSmartForward = false)
    (hl : ∀ p ∈ l, unrecognizedCode p.2) :
    (runFrom s (l.map fun p => (p.1, some p.2, none))).isSmartForward = false ∧
    pins (runFrom s (l.map fun p => (p.1, some p.2, none))) = pins s ∧
    (runFrom s (l.map fun p => (p.1, some p.2, none))).buzzer = s.buzzer ∧
    (runFrom s (l.map fun p => (p.1, some p.2, none))).isAvoiding =
      s.isAvoiding := by
  induction l generalizing s with
  | nil => exact ⟨hs, rfl, rfl, rfl⟩
  | cons p rest ih =>
    have hrw : runFrom s ((p :: rest).map fun q => (q.1, some q.2, none)) =
        runFrom { s with lastIRSignalTime := p.1 }
          (rest.map fun q => (q.1, some q.2, none)) := by
      show runFrom (loopStep s p.1 (some p.2) none)
        (rest.map fun q => (q.1, some q.2, none)) = _
      rw [manual_unrecognized_step s hs p.1 p.2 (hl p (by simp)) none]
    rw [hrw]
    exact ih { s with lastIRSignalTime := p.1 } hs
      fun q hq => hl q (List.mem_cons_of_mem p hq)

/-- Claim C10: in Manual mode, an IR frame decoding to an unrecognized code
re-stamps `lastIRSignalTime` with the current time and changes nothing else;
consequently a stream of unrecognized frames at arbitrary times keeps the
mode, motor pins, buzzer and `isAvoiding` unchanged — the manual-silence
watchdog never stops the car. -/
theorem C10_unrecognized_rearms_watchdog (s : CarState)
    (hs : s.isSmartForward = false) (now c : Nat) (hc : unrecognizedCode c)
    (e : Option Nat) (l : List (Nat × Nat))
    (hl : ∀ p ∈ l, unrecognizedCode p.2) :
    loopStep s now (some c) e = { s with lastIRSignalTime := now } ∧
    ((runFrom s (l.map fun p => (p.1, some p.2, none))).isSmartForward = false ∧
     pins (runFrom s (l.map fun p => (p.1, some p.2, none))) = pins s ∧
     (runFrom s (l.map fun p => (p.1, some p.2, none))).buzzer = s.buzzer ∧
     (runFrom s (l.map fun p => (p.1, some p.2, none))).isAvoiding =
       s.isAvoiding) :=
  ⟨manual_unrecognized_step s hs now c hc e,
   manual_unrecognized_run l s hs hl⟩

/-- Witness for C10: the code 0x100 is not one of the five command codes; a
frame carrying it at time 5, and a one-frame stream of it at time 470 (well
past the silence timeout), leave the post-setup state unchanged except for
`lastIRSignalTime`. -/
theorem C10_unrecognized_rearms_watchdog_witness :
    loopStep initState 5 (some 0x100) none =
      { initState with lastIRSignalTime := 5 } ∧
    ((runFrom initState [(470, some 0x100, none)]).isSmartForward = false ∧
     pins (runFrom initState [(470, some 0x100, none)]) = pins initState ∧
     (runFrom initState [(470, some 0x100, none)]).buzzer = initState.buzzer ∧
     (runFrom initState [(470, some 0x100, none)]).isAvoiding =
       initState.isAvoiding) :=
  C10_unrecognized_rearms_watchdog initState rfl 5 0x100 (by decide) none
    [(470, 0x100)] (by decide)

end IrCar
